import Mathlib

/-!
Verification development for the webhook core of the gobin server:
the permission-gated webhook registry handlers, the asynchronous event
dispatcher, and the retrying delivery loop, shallowly embedded from the
Go sources of package `server` (webhook handlers and dispatcher).
-/

namespace Gobin

/-- Webhook configuration block, mirroring `cfg.Webhook` as consumed by the
dispatcher: `Enabled` gates dispatch, `Timeout` bounds the registry lookup
(nanoseconds), `MaxTries` is the attempt budget, `Backoff` is the base
backoff in nanoseconds, `BackoffFactor` is the float64 multiplier (modelled
as a rational, exact for the values float64 represents exactly), and
`MaxBackoff` caps the delay. -/
structure WebhookConfig where
  Enabled : Bool
  Timeout : Int
  MaxTries : Nat
  Backoff : Int
  BackoffFactor : ℚ
  MaxBackoff : Int

/-- Result of one HTTP delivery attempt as seen by the retry loop: a
transport error returned by `client.Do`, or a response with a status code. -/
inductive AttemptResult where
  | transportError
  | status (code : Nat)
deriving DecidableEq

/-- Success test of the retry loop body: a response arrived and its status
code was not rejected by the check `StatusCode < 200 || StatusCode >= 300`. -/
def attemptSucceeds : AttemptResult → Bool
  | .transportError => false
  | .status code => !(decide (code < 200) || decide (300 ≤ code))

/-- Truncation toward zero of a rational, modelling the Go conversion of the
float64 backoff product to a `time.Duration` (int64 nanoseconds). -/
def ratTrunc (q : ℚ) : Int := Int.tdiv q.num (q.den : Int)

/-- The backoff computed at the top of iteration `i` of the retry loop:
`time.Duration(BackoffFactor * float64(Backoff) * float64(i))`. -/
def rawBackoff (cfg : WebhookConfig) (i : Nat) : Int :=
  ratTrunc (cfg.BackoffFactor * (cfg.Backoff : ℚ) * (i : ℚ))

/-- The sleeps performed before attempt `i`: when the computed backoff
exceeds one nanosecond it is capped at `MaxBackoff` and slept, otherwise the
sleep is skipped entirely (`if backoff > time.Nanosecond`). -/
def sleepsBefore (cfg : WebhookConfig) (i : Nat) : List Int :=
  let backoff := rawBackoff cfg i
  if 1 < backoff then
    [if cfg.MaxBackoff < backoff then cfg.MaxBackoff else backoff]
  else
    []

/-- Observable trace of one `executeWebhook` delivery: the 0-based indices of
the attempts made in order, the sleep durations performed, whether the loop
ended in success (a 2xx response), and whether the terminal
max-tries-reached failure was logged. -/
structure DeliveryTrace where
  attempts : List Nat
  sleeps : List Int
  success : Bool
  terminalFailureLogged : Bool
deriving DecidableEq

/-- The retry loop of `executeWebhook`, unrolled from attempt index `i` with
`n` iterations remaining: sleep the backoff, perform the attempt, return on
the first success, otherwise continue; falling off the loop logs the
terminal `max tries reached` failure. `responder i` is the outcome the
network produces for attempt `i`. -/
def retryLoopFrom (cfg : WebhookConfig) (responder : Nat → AttemptResult) :
    Nat → Nat → DeliveryTrace
  | 0, _ => ⟨[], [], false, true⟩
  | n+1, i =>
    let pre := sleepsBefore cfg i
    if attemptSucceeds (responder i) then
      ⟨[i], pre, true, false⟩
    else
      let t := retryLoopFrom cfg responder n (i+1)
      ⟨i :: t.attempts, pre ++ t.sleeps, t.success, t.terminalFailureLogged⟩

/-- The whole delivery loop of `executeWebhook`:
`for i := 0; i < cfg.MaxTries; i++`. -/
def executeWebhookModel (cfg : WebhookConfig) (responder : Nat → AttemptResult) :
    DeliveryTrace :=
  retryLoopFrom cfg responder cfg.MaxTries 0

/-- The configuration of the worked example in the specification:
MaxTries 3, base backoff 100ms, factor 2, cap 300ms (durations in ns). -/
def exampleCfg : WebhookConfig :=
  ⟨true, 10000000000, 3, 100000000, 2, 300000000⟩

/-- A subscriber endpoint failing every attempt with a 500 response. -/
def failAllResponder : Nat → AttemptResult := fun _ => .status 500

/-- A subscriber endpoint failing attempt 1 and succeeding on attempt 2
(0-based index 1) with a 204 response. -/
def succeedSecondResponder : Nat → AttemptResult :=
  fun n => if n = 1 then .status 204 else .status 500

/-- A webhook subscription row as stored by the persistence collaborator
(`database.Webhook`): `Events` holds the comma-joined subscribed event
names, exactly as the dispatcher and the handlers read it. -/
structure Webhook where
  ID : String
  DocumentID : String
  URL : String
  Secret : String
  Events : String
deriving DecidableEq

/-- Modelled from the spec: the state of the persistence collaborator
(package `server/database`, not among the sources) — webhook records keyed
by (document, webhook id, secret), plus a counter for generating fresh
webhook ids. -/
structure DB where
  rows : List Webhook
  nextID : Nat
deriving DecidableEq

/-- Splitting a character list at every occurrence of a separator character,
modelling Go `strings.Split` with a one-character separator: the result is
never empty and splitting the empty string yields one empty piece. -/
def splitChars (sep : Char) : List Char → List (List Char)
  | [] => [[]]
  | c :: rest =>
    match splitChars sep rest with
    | [] => [[]]
    | g :: gs => if c = sep then [] :: g :: gs else (c :: g) :: gs

/-- `strings.Split(s, ",")` as applied to the stored `Events` column. -/
def splitComma (s : String) : List String :=
  (splitChars ',' s.toList).map (fun cs => String.mk cs)

/-- The subscriber filter of the dispatcher:
`slices.Contains(strings.Split(webhook.Events, ","), event)`. -/
def webhookMatchesEvent (w : Webhook) (event : String) : Bool :=
  (splitComma w.Events).contains event

/-- Modelled from the spec: plain lookup of all webhooks of a document. -/
def getWebhooksByDocumentID (db : DB) (key : String) : List Webhook :=
  db.rows.filter (fun w => w.DocumentID == key)

/-- Modelled from the spec: atomic get-and-delete of all webhooks of a
document, returning the removed rows together with the updated store. -/
def getAndDeleteWebhooksByDocumentID (db : DB) (key : String) :
    List Webhook × DB :=
  (db.rows.filter (fun w => w.DocumentID == key),
   { db with rows := db.rows.filter (fun w => !(w.DocumentID == key)) })

/-- The firing event name of a document update. -/
def WebhookEventUpdate : String := "update"

/-- The firing event name of a document deletion. -/
def WebhookEventDelete : String := "delete"

/-- Observable outcome of one run of the internal `executeWebhooks`
goroutine: the webhooks for which a delivery task was started, the updated
store, whether the dispatch aborted on a lookup failure, and how many times
the deferred server-level `webhookWaitGroup.Done` ran on that path. -/
structure DispatchResult where
  delivered : List Webhook
  db : DB
  aborted : Bool
  wgDones : Nat
deriving DecidableEq

/-- The internal `executeWebhooks` body: resolve the subscriber list via
get-and-delete for a delete event and via plain lookup otherwise (`dbFail`
injects a persistence error), log and return on a lookup failure, return
silently on an empty list, and otherwise start one delivery task per
subscriber whose subscribed event set contains the firing event. The
deferred `webhookWaitGroup.Done` is recorded once on every return path. -/
def executeWebhooksInner (dbFail : Bool) (db : DB) (event : String)
    (docKey : String) : DispatchResult :=
  if dbFail then
    { delivered := [], db := db, aborted := true, wgDones := 1 }
  else
    let resolved :=
      if event == WebhookEventDelete then getAndDeleteWebhooksByDocumentID db docKey
      else (getWebhooksByDocumentID db docKey, db)
    if resolved.1.isEmpty then
      { delivered := [], db := resolved.2, aborted := false, wgDones := 1 }
    else
      { delivered := resolved.1.filter (fun w => webhookMatchesEvent w event),
        db := resolved.2, aborted := false, wgDones := 1 }

/-- Outcome of the public `ExecuteWebhooks` entry point, adding the
wait-group `Add` bookkeeping and the configuration gate. -/
structure NotifyResult where
  delivered : List Webhook
  db : DB
  aborted : Bool
  wgAdds : Nat
  wgDones : Nat
deriving DecidableEq

/-- The public `ExecuteWebhooks`: returns immediately when webhooks are
disabled, otherwise performs `webhookWaitGroup.Add(1)` and runs the detached
dispatch goroutine. -/
def ExecuteWebhooksModel (enabled : Bool) (dbFail : Bool) (db : DB)
    (event docKey : String) : NotifyResult :=
  if !enabled then
    { delivered := [], db := db, aborted := false, wgAdds := 0, wgDones := 0 }
  else
    let r := executeWebhooksInner dbFail db event docKey
    { delivered := r.delivered, db := r.db, aborted := r.aborted,
      wgAdds := 1, wgDones := r.wgDones }

/-- A sample subscription used in witnesses. -/
def sampleWebhook : Webhook :=
  ⟨"wh1", "doc1", "https://example.com/hook", "s3cret", "update,delete"⟩

/-- A sample subscription subscribed to update events only. -/
def updateOnlyWebhook : Webhook :=
  ⟨"wh2", "doc1", "https://example.com/hook2", "s3cret2", "update"⟩

/-- A sample store used in witnesses. -/
def sampleDB : DB := ⟨[sampleWebhook, updateOnlyWebhook], 3⟩

/-- The error message of `ErrWebhookNotFound`. -/
def ErrWebhookNotFound : String := "webhook not found"

/-- The error message of `ErrMissingWebhookSecret`. -/
def ErrMissingWebhookSecret : String := "missing webhook secret"

/-- The error message of `ErrMissingWebhookURL`. -/
def ErrMissingWebhookURL : String := "missing webhook url"

/-- The error message of `ErrMissingWebhookEvents`. -/
def ErrMissingWebhookEvents : String := "missing webhook events"

/-- The error message of `ErrMissingURLOrSecretOrEvents`. -/
def ErrMissingURLOrSecretOrEvents : String := "missing url, secret or events"

/-- `GetWebhookSecret`: read the Authorization header; when it is longer
than 7 characters and its first 6 characters uppercase to SECRET, return
everything after the first 7 characters, and the empty string otherwise.
Go indexes header bytes; headers are modelled at character granularity,
which agrees with the byte view on ASCII input. -/
def GetWebhookSecret (header : String) : String :=
  let cs := header.toList
  if 7 < cs.length ∧ (cs.take 6).map Char.toUpper = ['S', 'E', 'C', 'R', 'E', 'T'] then
    String.mk (cs.drop 7)
  else
    ""

/-- The JSON body of a webhook creation request. -/
structure WebhookCreateRequest where
  URL : String
  Secret : String
  Events : List String
deriving DecidableEq

/-- The JSON body of a webhook update request. -/
structure WebhookUpdateRequest where
  URL : String
  Secret : String
  Events : List String
deriving DecidableEq

/-- The JSON body returned on handler success, with the stored event string
split back into a list. -/
structure WebhookResponse where
  ID : String
  DocumentKey : String
  URL : String
  Secret : String
  Events : List String
deriving DecidableEq

/-- The response classes a handler can produce, with the error message a
client can observe. -/
inductive HandlerResult where
  | badRequestErr (msg : String)
  | forbiddenErr (msg : String)
  | notFoundErr (msg : String)
  | internalErr
  | okWebhook (resp : WebhookResponse)
  | okEmpty
deriving DecidableEq

/-- Tests whether a handler response is of the Forbidden class. -/
def isForbiddenResult : HandlerResult → Bool
  | .forbiddenErr _ => true
  | _ => false

/-- The `WebhookResponse` built from a stored row by every handler. -/
def webhookResponseOf (w : Webhook) : WebhookResponse :=
  ⟨w.ID, w.DocumentID, w.URL, w.Secret, splitComma w.Events⟩

/-- Outcome of a handler invocation: the response, the persistence state
afterwards, and whether any persistence call was reached. -/
structure HandlerOutcome where
  result : HandlerResult
  db : DB
  persisted : Bool
deriving DecidableEq

/-- Modelled from the spec: the row-addressing predicate of the persistence
CRUD — a row is addressed by document key, webhook id and the exact stored
secret. -/
def rowMatches (docID whID secret : String) (w : Webhook) : Bool :=
  w.DocumentID == docID && w.ID == whID && w.Secret == secret

/-- Modelled from the spec: `GetWebhook` returns the row matching the
triple, or reports no rows. -/
def dbGetWebhook (db : DB) (docID whID secret : String) : Option Webhook :=
  db.rows.find? (rowMatches docID whID secret)

/-- Go `strings.Join(events, ",")`, producing the stored `Events` column. -/
def joinComma (events : List String) : String := String.intercalate "," events

/-- Modelled from the spec: the opaque server-generated id of a new row. -/
def freshWebhookID (db : DB) : String := "webhook-" ++ toString db.nextID

/-- Modelled from the spec: `CreateWebhook` stores a new row under a
generated id and returns it. -/
def dbCreateWebhook (db : DB) (docID url secret : String)
    (events : List String) : Webhook × DB :=
  let w : Webhook := ⟨freshWebhookID db, docID, url, secret, joinComma events⟩
  (w, ⟨db.rows ++ [w], db.nextID + 1⟩)

/-- Modelled from the spec: the partial update applied by `UpdateWebhook` —
an empty optional field keeps the stored value. -/
def applyWebhookUpdate (w : Webhook) (u : WebhookUpdateRequest) : Webhook :=
  { w with
    URL := if u.URL == "" then w.URL else u.URL,
    Secret := if u.Secret == "" then w.Secret else u.Secret,
    Events := if u.Events.isEmpty then w.Events else joinComma u.Events }

/-- Modelled from the spec: `UpdateWebhook` updates the row matching the
triple and returns it, or reports no rows. -/
def dbUpdateWebhook (db : DB) (docID whID secret : String)
    (u : WebhookUpdateRequest) : Option (Webhook × DB) :=
  match db.rows.find? (rowMatches docID whID secret) with
  | none => none
  | some w =>
    let w2 := applyWebhookUpdate w u
    some (w2, { db with rows := (db.rows.map
      (fun x => if rowMatches docID whID secret x then w2 else x)) })

/-- Modelled from the spec: `DeleteWebhook` removes the row matching the
triple, or reports no rows. -/
def dbDeleteWebhook (db : DB) (docID whID secret : String) : Option DB :=
  match db.rows.find? (rowMatches docID whID secret) with
  | none => none
  | some _ => some { db with rows := (db.rows.filter
      (fun x => !(rowMatches docID whID secret x))) }

/-- Modelled from the spec: permission flag sets of package `internal/flags`
(not among the sources) — a bitset where `Has` tests that every bit of the
permission is present and `Misses` is its negation. -/
def flagsHas (set perm : Nat) : Bool := set &&& perm == perm

/-- Modelled from the spec: `flags.Misses`, the guard-clause negation of
`flagsHas`. -/
def flagsMisses (set perm : Nat) : Bool := !(flagsHas set perm)

/-- Modelled from the spec: the named permission bit gating webhook
creation; its concrete position is irrelevant to the handlers. -/
def PermissionWebhook : Nat := 8

/-- `PostDocumentWebhook`: decode the body, reject an empty url, secret or
event list with BadRequest, reject claims without the Webhook permission
with Forbidden, then create and return the webhook. `bodyOk` models whether
JSON decoding of the body succeeded. -/
def PostDocumentWebhookModel (db : DB) (docID : String) (bodyOk : Bool)
    (body : WebhookCreateRequest) (claimsPermissions : Nat) : HandlerOutcome :=
  if !bodyOk then ⟨.badRequestErr "invalid body", db, false⟩
  else if body.URL == "" then ⟨.badRequestErr ErrMissingWebhookURL, db, false⟩
  else if body.Secret == "" then ⟨.badRequestErr ErrMissingWebhookSecret, db, false⟩
  else if body.Events.isEmpty then ⟨.badRequestErr ErrMissingWebhookEvents, db, false⟩
  else if flagsMisses claimsPermissions PermissionWebhook then
    ⟨.forbiddenErr "permission denied: webhook", db, false⟩
  else
    let created := dbCreateWebhook db docID body.URL body.Secret body.Events
    ⟨.okWebhook (webhookResponseOf created.1), created.2, true⟩

/-- `GetDocumentWebhook`: extract the secret from the Authorization header,
reject a missing secret with BadRequest, then delegate to `GetWebhook`,
mapping a no-rows error to NotFound. -/
def GetDocumentWebhookModel (db : DB) (docID whID header : String) :
    HandlerOutcome :=
  let secret := GetWebhookSecret header
  if secret == "" then ⟨.badRequestErr ErrMissingWebhookSecret, db, false⟩
  else
    match dbGetWebhook db docID whID secret with
    | none => ⟨.notFoundErr ErrWebhookNotFound, db, true⟩
    | some w => ⟨.okWebhook (webhookResponseOf w), db, true⟩

/-- `PatchDocumentWebhook`: extract the secret (BadRequest when missing),
decode the body (BadRequest when malformed), reject a body whose url,
secret and events are all empty with BadRequest, then delegate to
`UpdateWebhook`, mapping a no-rows error to NotFound. -/
def PatchDocumentWebhookModel (db : DB) (docID whID header : String)
    (bodyOk : Bool) (u : WebhookUpdateRequest) : HandlerOutcome :=
  let secret := GetWebhookSecret header
  if secret == "" then ⟨.badRequestErr ErrMissingWebhookSecret, db, false⟩
  else if !bodyOk then ⟨.badRequestErr "invalid body", db, false⟩
  else if u.URL == "" && u.Secret == "" && u.Events.isEmpty then
    ⟨.badRequestErr ErrMissingURLOrSecretOrEvents, db, false⟩
  else
    match dbUpdateWebhook db docID whID secret u with
    | none => ⟨.notFoundErr ErrWebhookNotFound, db, true⟩
    | some wdb => ⟨.okWebhook (webhookResponseOf wdb.1), wdb.2, true⟩

/-- `DeleteDocumentWebhook`: extract the secret (BadRequest when missing),
then delegate to `DeleteWebhook`, mapping a no-rows error to NotFound and
success to an empty 200 body. -/
def DeleteDocumentWebhookModel (db : DB) (docID whID header : String) :
    HandlerOutcome :=
  let secret := GetWebhookSecret header
  if secret == "" then ⟨.badRequestErr ErrMissingWebhookSecret, db, false⟩
  else
    match dbDeleteWebhook db docID whID secret with
    | none => ⟨.notFoundErr ErrWebhookNotFound, db, true⟩
    | some db2 => ⟨.okEmpty, db2, true⟩

/-- A Go context as far as this code observes it: whether cancellation of
the originating request can still reach it, and its deadline if any. -/
structure Ctx where
  cancellable : Bool
  deadline : Option Int
deriving DecidableEq

/-- `context.WithoutCancel`: the result is never canceled and carries no
deadline, even when the parent had one. -/
def contextWithoutCancel (_parent : Ctx) : Ctx := ⟨false, none⟩

/-- `context.WithTimeout`: the child keeps the parent cancellation link and
gains the given deadline (the parents built below carry no deadline of
their own). -/
def contextWithTimeout (c : Ctx) (d : Int) : Ctx := ⟨c.cancellable, some d⟩

/-- The context built once in `ExecuteWebhooks` and handed to the dispatch
goroutine: `context.WithoutCancel(ctx)`. -/
def dispatchCtx (parent : Ctx) : Ctx := contextWithoutCancel parent

/-- The context guarding the registry lookup inside `executeWebhooks`:
`context.WithTimeout(ctx, time.Duration(cfg.Webhook.Timeout))`. -/
def lookupCtx (parent : Ctx) (timeout : Int) : Ctx :=
  contextWithTimeout (dispatchCtx parent) timeout

/-- The context under which every delivery attempt sends its request: the
dispatch context is passed unchanged into `executeWebhook` and handed to
`http.NewRequestWithContext`; no further timeout is layered on it. -/
def attemptCtx (parent : Ctx) : Ctx := dispatchCtx parent

lemma ratTrunc_intCast (k : ℤ) : ratTrunc (k : ℚ) = k := by
  simp [ratTrunc]

lemma retryLoopFrom_attempts_range' (cfg : WebhookConfig) (r : Nat → AttemptResult) :
    ∀ n i, (retryLoopFrom cfg r n i).attempts =
      List.range' i (retryLoopFrom cfg r n i).attempts.length := by
  intro n
  induction n with
  | zero => intro i; simp [retryLoopFrom]
  | succ n ih =>
    intro i
    by_cases h : attemptSucceeds (r i) = true
    · simp [retryLoopFrom, h]
    · simp only [retryLoopFrom, Bool.not_eq_true] at h ⊢
      simp only [h, Bool.false_eq_true, if_false, List.length_cons, List.range'_succ]
      exact congrArg (i :: ·) (ih (i + 1))

lemma retryLoopFrom_length_le (cfg : WebhookConfig) (r : Nat → AttemptResult) :
    ∀ n i, (retryLoopFrom cfg r n i).attempts.length ≤ n := by
  intro n
  induction n with
  | zero => intro i; simp [retryLoopFrom]
  | succ n ih =>
    intro i
    by_cases h : attemptSucceeds (r i) = true
    · simp [retryLoopFrom, h]
    · simp only [retryLoopFrom, Bool.not_eq_true] at h ⊢
      simp only [h, Bool.false_eq_true, if_false, List.length_cons]
      exact Nat.succ_le_succ (ih (i + 1))

lemma retryLoopFrom_all_fail (cfg : WebhookConfig) (r : Nat → AttemptResult) :
    ∀ n i, (∀ m, i ≤ m → m < i + n → attemptSucceeds (r m) = false) →
      (retryLoopFrom cfg r n i).attempts = List.range' i n ∧
      (retryLoopFrom cfg r n i).sleeps = (List.range' i n).flatMap (sleepsBefore cfg) ∧
      (retryLoopFrom cfg r n i).success = false ∧
      (retryLoopFrom cfg r n i).terminalFailureLogged = true := by
  intro n
  induction n with
  | zero => intro i _; simp [retryLoopFrom]
  | succ n ih =>
    intro i hfail
    have h : attemptSucceeds (r i) = false :=
      hfail i (Nat.le_refl i) (by omega)
    simp only [retryLoopFrom, h, Bool.false_eq_true, if_false]
    have hrec := ih (i + 1) (fun m hm hm2 => hfail m (by omega) (by omega))
    refine ⟨?_, ?_, hrec.2.2.1, hrec.2.2.2⟩
    · simp only [List.range'_succ]
      exact congrArg (i :: ·) hrec.1
    · simp only [List.range'_succ, List.flatMap_cons]
      exact congrArg (sleepsBefore cfg i ++ ·) hrec.2.1

lemma retryLoopFrom_first_success (cfg : WebhookConfig) (r : Nat → AttemptResult) :
    ∀ n i j, i ≤ j → j < i + n → attemptSucceeds (r j) = true →
      (∀ m, i ≤ m → m < j → attemptSucceeds (r m) = false) →
      (retryLoopFrom cfg r n i).attempts = List.range' i (j - i + 1) ∧
      (retryLoopFrom cfg r n i).success = true ∧
      (retryLoopFrom cfg r n i).terminalFailureLogged = false := by
  intro n
  induction n with
  | zero => intro i j h1 h2; omega
  | succ n ih =>
    intro i j h1 h2 hsucc hmin
    rcases Nat.eq_or_lt_of_le h1 with heq | hlt
    · subst heq
      simp [retryLoopFrom, hsucc]
    · have h : attemptSucceeds (r i) = false :=
        hmin i (Nat.le_refl i) hlt
      simp only [retryLoopFrom, h, Bool.false_eq_true, if_false]
      have hrec := ih (i + 1) j (by omega) (by omega) hsucc
        (fun m hm hm2 => hmin m (by omega) hm2)
      refine ⟨?_, hrec.2.1, hrec.2.2⟩
      have hlen : j - i + 1 = (j - (i + 1) + 1) + 1 := by omega
      rw [hlen, List.range'_succ]
      exact congrArg (i :: ·) hrec.1

lemma rawBackoff_exampleCfg (i : Nat) : rawBackoff exampleCfg i = 200000000 * i := by
  have h : exampleCfg.BackoffFactor * (exampleCfg.Backoff : ℚ) * (i : ℚ) =
      ((200000000 * i : ℤ) : ℚ) := by
    show (2 : ℚ) * ((100000000 : ℤ) : ℚ) * (i : ℚ) = ((200000000 * i : ℤ) : ℚ)
    push_cast
    ring
  rw [rawBackoff, h, ratTrunc_intCast]

lemma sleepsBefore_exampleCfg_zero : sleepsBefore exampleCfg 0 = [] := by
  simp [sleepsBefore, rawBackoff_exampleCfg]

lemma sleepsBefore_exampleCfg_one : sleepsBefore exampleCfg 1 = [200000000] := by
  rw [sleepsBefore]
  rw [rawBackoff_exampleCfg]
  norm_num [exampleCfg]

lemma sleepsBefore_exampleCfg_two : sleepsBefore exampleCfg 2 = [300000000] := by
  rw [sleepsBefore]
  rw [rawBackoff_exampleCfg]
  norm_num [exampleCfg]

lemma executeWebhookModel_exampleCfg_failAll :
    (executeWebhookModel exampleCfg failAllResponder).attempts = [0, 1, 2] ∧
    (executeWebhookModel exampleCfg failAllResponder).sleeps =
      [200000000, 300000000] ∧
    (executeWebhookModel exampleCfg failAllResponder).success = false ∧
    (executeWebhookModel exampleCfg failAllResponder).terminalFailureLogged = true := by
  have hfail : ∀ m, 0 ≤ m → m < 0 + exampleCfg.MaxTries →
      attemptSucceeds (failAllResponder m) = false := fun m _ _ => rfl
  have h := retryLoopFrom_all_fail exampleCfg failAllResponder exampleCfg.MaxTries 0 hfail
  have hrange : List.range' 0 exampleCfg.MaxTries = [0, 1, 2] := rfl
  refine ⟨by rw [executeWebhookModel, h.1, hrange], ?_, h.2.2.1, h.2.2.2⟩
  rw [executeWebhookModel, h.2.1, hrange]
  simp [List.flatMap_cons, sleepsBefore_exampleCfg_zero, sleepsBefore_exampleCfg_one,
    sleepsBefore_exampleCfg_two]

/-- C1: for every delivery, the delay slept before attempt i equals
min(MaxBackoff, BackoffFactor * BaseBackoff * i) whenever that product (an
integer number of nanoseconds) is above the one-nanosecond threshold, and is
skipped entirely otherwise; in particular with MaxTries 3, base 100ms,
factor 2, cap 300ms, an always-failing subscriber is attempted exactly 3
times, with no sleep before attempt 1, a 200ms sleep before attempt 2 and a
300ms sleep before attempt 3. -/
theorem C1_backoff_schedule :
    (∀ (cfg : WebhookConfig) (i : Nat) (k : ℤ),
        cfg.BackoffFactor * (cfg.Backoff : ℚ) * (i : ℚ) = (k : ℚ) →
        1 < k →
        sleepsBefore cfg i = [min cfg.MaxBackoff k]) ∧
    (∀ (cfg : WebhookConfig) (i : Nat) (k : ℤ),
        cfg.BackoffFactor * (cfg.Backoff : ℚ) * (i : ℚ) = (k : ℚ) →
        k ≤ 1 →
        sleepsBefore cfg i = []) ∧
    (executeWebhookModel exampleCfg failAllResponder).attempts = [0, 1, 2] ∧
    (executeWebhookModel exampleCfg failAllResponder).sleeps =
      [200000000, 300000000] ∧
    sleepsBefore exampleCfg 0 = [] := by
  refine ⟨?_, ?_, executeWebhookModel_exampleCfg_failAll.1,
    executeWebhookModel_exampleCfg_failAll.2.1, sleepsBefore_exampleCfg_zero⟩
  · intro cfg i k hk h1
    rw [sleepsBefore, rawBackoff, hk, ratTrunc_intCast, if_pos h1]
    simp only [List.cons.injEq, and_true]
    rw [Int.min_def]
    split <;> split <;> omega
  · intro cfg i k hk h1
    rw [sleepsBefore, rawBackoff, hk, ratTrunc_intCast, if_neg (by omega)]

/-- Witness for C1 at the concrete example configuration and attempt index 2,
where the raw product 400ms is capped by MaxBackoff 300ms. -/
theorem C1_backoff_schedule_witness :
    sleepsBefore exampleCfg 2 = [min exampleCfg.MaxBackoff 400000000] :=
  C1_backoff_schedule.1 exampleCfg 2 400000000
    (by show (2 : ℚ) * ((100000000 : ℤ) : ℚ) * ((2 : ℕ) : ℚ) = ((400000000 : ℤ) : ℚ)
        norm_num)
    (by norm_num)

/-- C2: attempts of one delivery run strictly sequentially from index 0 and
never exceed MaxTries; the first 2xx response ends the loop as success with
no further attempt and no terminal-failure log; exhausting all MaxTries
attempts without a 2xx ends as a terminal failure that is only logged. -/
theorem C2_retry_loop_termination :
    (∀ (cfg : WebhookConfig) (r : Nat → AttemptResult),
        (executeWebhookModel cfg r).attempts =
          List.range (executeWebhookModel cfg r).attempts.length ∧
        (executeWebhookModel cfg r).attempts.length ≤ cfg.MaxTries) ∧
    (∀ (cfg : WebhookConfig) (r : Nat → AttemptResult) (j : Nat),
        j < cfg.MaxTries → attemptSucceeds (r j) = true →
        (∀ m, m < j → attemptSucceeds (r m) = false) →
        (executeWebhookModel cfg r).attempts = List.range (j + 1) ∧
        (executeWebhookModel cfg r).success = true ∧
        (executeWebhookModel cfg r).terminalFailureLogged = false) ∧
    (∀ (cfg : WebhookConfig) (r : Nat → AttemptResult),
        (∀ m, m < cfg.MaxTries → attemptSucceeds (r m) = false) →
        (executeWebhookModel cfg r).attempts = List.range cfg.MaxTries ∧
        (executeWebhookModel cfg r).success = false ∧
        (executeWebhookModel cfg r).terminalFailureLogged = true) := by
  refine ⟨?_, ?_, ?_⟩
  · intro cfg r
    constructor
    · rw [List.range_eq_range']
      exact retryLoopFrom_attempts_range' cfg r cfg.MaxTries 0
    · exact retryLoopFrom_length_le cfg r cfg.MaxTries 0
  · intro cfg r j hj hsucc hmin
    have h := retryLoopFrom_first_success cfg r cfg.MaxTries 0 j (Nat.zero_le j)
      (by omega) hsucc (fun m _ hm2 => hmin m hm2)
    rw [List.range_eq_range']
    simpa [executeWebhookModel] using h
  · intro cfg r hfail
    have h := retryLoopFrom_all_fail cfg r cfg.MaxTries 0
      (fun m _ hm2 => hfail m (by omega))
    rw [List.range_eq_range']
    exact ⟨h.1, h.2.2.1, h.2.2.2⟩

/-- Witness for C2: a subscriber succeeding on attempt 2 (index 1) under the
example configuration is attempted exactly twice and ends in success. -/
theorem C2_retry_loop_termination_witness :
    (executeWebhookModel exampleCfg succeedSecondResponder).attempts = List.range 2 ∧
    (executeWebhookModel exampleCfg succeedSecondResponder).success = true ∧
    (executeWebhookModel exampleCfg succeedSecondResponder).terminalFailureLogged =
      false :=
  C2_retry_loop_termination.2.1 exampleCfg succeedSecondResponder 1 (by decide)
    (by decide) (by decide)

lemma executeWebhooksInner_delete_eq (db : DB) (docKey : String) :
    executeWebhooksInner false db WebhookEventDelete docKey =
      { delivered := (db.rows.filter (fun w => w.DocumentID == docKey)).filter
          (fun w => webhookMatchesEvent w WebhookEventDelete),
        db := { db with rows := db.rows.filter (fun w => !(w.DocumentID == docKey)) },
        aborted := false, wgDones := 1 } := by
  rw [executeWebhooksInner]
  simp only [Bool.false_eq_true, if_false, beq_self_eq_true, if_true,
    getAndDeleteWebhooksByDocumentID]
  by_cases he : (db.rows.filter (fun w => w.DocumentID == docKey)).isEmpty = true
  · rw [if_pos he]
    simp [List.isEmpty_iff.mp he]
  · rw [if_neg he]

lemma executeWebhooksInner_other_eq (db : DB) (event docKey : String)
    (h : event ≠ WebhookEventDelete) :
    executeWebhooksInner false db event docKey =
      { delivered := (getWebhooksByDocumentID db docKey).filter
          (fun w => webhookMatchesEvent w event),
        db := db, aborted := false, wgDones := 1 } := by
  rw [executeWebhooksInner]
  have hb : (event == WebhookEventDelete) = false := by
    simpa using h
  simp only [Bool.false_eq_true, if_false, hb]
  by_cases he : (getWebhooksByDocumentID db docKey).isEmpty = true
  · rw [if_pos he]
    simp [List.isEmpty_iff.mp he]
  · rw [if_neg he]

/-- C4: for every dispatch the subscriber list is resolved via the atomic
get-and-delete exactly when the event is "delete" (removing every webhook of
the document from the store) and via the plain lookup otherwise (store
unchanged); a lookup failure aborts the dispatch with zero delivery tasks;
delivered webhooks always come from the store, after a delete dispatch no
webhook of the document remains, and a repeated delete dispatch delivers to
nothing, so each webhook fires for a delete event at most once. -/
theorem C4_delete_resolution_atomic :
    (∀ (db : DB) (docKey : String),
        (executeWebhooksInner false db WebhookEventDelete docKey).db.rows =
          db.rows.filter (fun w => !(w.DocumentID == docKey)) ∧
        (executeWebhooksInner false db WebhookEventDelete docKey).delivered =
          (db.rows.filter (fun w => w.DocumentID == docKey)).filter
            (fun w => webhookMatchesEvent w WebhookEventDelete)) ∧
    (∀ (db : DB) (event docKey : String), event ≠ WebhookEventDelete →
        (executeWebhooksInner false db event docKey).db = db ∧
        (executeWebhooksInner false db event docKey).delivered =
          (getWebhooksByDocumentID db docKey).filter
            (fun w => webhookMatchesEvent w event)) ∧
    (∀ (db : DB) (event docKey : String),
        executeWebhooksInner true db event docKey = ⟨[], db, true, 1⟩) ∧
    (∀ (dbFail : Bool) (db : DB) (event docKey : String) (w : Webhook),
        w ∈ (executeWebhooksInner dbFail db event docKey).delivered →
        w ∈ db.rows) ∧
    (∀ (db : DB) (docKey : String) (w : Webhook),
        w ∈ (executeWebhooksInner false db WebhookEventDelete docKey).db.rows →
        ¬(w.DocumentID = docKey)) ∧
    (∀ (db : DB) (docKey : String),
        (executeWebhooksInner false
          (executeWebhooksInner false db WebhookEventDelete docKey).db
          WebhookEventDelete docKey).delivered = []) := by
  refine ⟨?_, ?_, ?_, ?_, ?_, ?_⟩
  · intro db docKey
    rw [executeWebhooksInner_delete_eq]
    exact ⟨rfl, rfl⟩
  · intro db event docKey h
    rw [executeWebhooksInner_other_eq db event docKey h]
    exact ⟨rfl, rfl⟩
  · intro db event docKey
    rfl
  · intro dbFail db event docKey w hw
    cases dbFail with
    | true => simp [executeWebhooksInner] at hw
    | false =>
      by_cases hd : event = WebhookEventDelete
      · subst hd
        simp only [executeWebhooksInner_delete_eq] at hw
        exact (List.mem_filter.mp (List.mem_filter.mp hw).1).1
      · simp only [executeWebhooksInner_other_eq db event docKey hd] at hw
        exact (List.mem_filter.mp
          (List.mem_filter.mp hw).1).1
  · intro db docKey w hw
    simp only [executeWebhooksInner_delete_eq] at hw
    have := (List.mem_filter.mp hw).2
    simpa using this
  · intro db docKey
    simp only [executeWebhooksInner_delete_eq]
    have h0 : ((db.rows.filter (fun w => !(w.DocumentID == docKey))).filter
        (fun w => w.DocumentID == docKey)) = [] := by
      rw [List.filter_eq_nil_iff]
      intro w hw
      have hne := (List.mem_filter.mp hw).2
      simpa using hne
    rw [h0, List.filter_nil]

/-- Witness for C4: an update-event dispatch on the sample store leaves the
store unchanged and delivers to both sample subscriptions. -/
theorem C4_delete_resolution_atomic_witness :
    (executeWebhooksInner false sampleDB WebhookEventUpdate "doc1").db = sampleDB ∧
    (executeWebhooksInner false sampleDB WebhookEventUpdate "doc1").delivered =
      (getWebhooksByDocumentID sampleDB "doc1").filter
        (fun w => webhookMatchesEvent w WebhookEventUpdate) :=
  C4_delete_resolution_atomic.2.1 sampleDB WebhookEventUpdate "doc1" (by decide)

/-- C5: a subscriber whose subscribed event set does not contain the firing
event gets no delivery task on any dispatch; if no webhook of the document
matches the event (in particular if the document has no webhooks at all),
the dispatch delivers to nothing; and with webhooks disabled the whole
entry point is a no-op. -/
theorem C5_event_filter_and_disabled :
    (∀ (dbFail : Bool) (db : DB) (event docKey : String) (w : Webhook),
        webhookMatchesEvent w event = false →
        w ∉ (executeWebhooksInner dbFail db event docKey).delivered) ∧
    (∀ (db : DB) (event docKey : String),
        (∀ w ∈ db.rows, w.DocumentID = docKey →
          webhookMatchesEvent w event = false) →
        (executeWebhooksInner false db event docKey).delivered = []) ∧
    (∀ (db : DB) (event docKey : String),
        (∀ w ∈ db.rows, w.DocumentID ≠ docKey) →
        (executeWebhooksInner false db event docKey).delivered = []) ∧
    (∀ (dbFail : Bool) (db : DB) (event docKey : String),
        ExecuteWebhooksModel false dbFail db event docKey =
          ⟨[], db, false, 0, 0⟩) := by
  have hmem : ∀ (dbFail : Bool) (db : DB) (event docKey : String) (w : Webhook),
      w ∈ (executeWebhooksInner dbFail db event docKey).delivered →
      w ∈ db.rows ∧ w.DocumentID = docKey ∧ webhookMatchesEvent w event = true := by
    intro dbFail db event docKey w hw
    cases dbFail with
    | true => simp [executeWebhooksInner] at hw
    | false =>
      by_cases hd : event = WebhookEventDelete
      · subst hd
        simp only [executeWebhooksInner_delete_eq] at hw
        have h1 := List.mem_filter.mp hw
        have h2 := List.mem_filter.mp h1.1
        exact ⟨h2.1, by simpa using h2.2, h1.2⟩
      · simp only [executeWebhooksInner_other_eq db event docKey hd] at hw
        have h1 := List.mem_filter.mp hw
        have h2 := List.mem_filter.mp h1.1
        exact ⟨h2.1, by simpa using h2.2, h1.2⟩
  refine ⟨?_, ?_, ?_, ?_⟩
  · intro dbFail db event docKey w hmatch hw
    have := (hmem dbFail db event docKey w hw).2.2
    rw [hmatch] at this
    exact Bool.false_ne_true this
  · intro db event docKey hnone
    rw [List.eq_nil_iff_forall_not_mem]
    intro w hw
    have h := hmem false db event docKey w hw
    have := hnone w h.1 h.2.1
    rw [this] at h
    exact Bool.false_ne_true h.2.2
  · intro db event docKey hnone
    rw [List.eq_nil_iff_forall_not_mem]
    intro w hw
    have h := hmem false db event docKey w hw
    exact hnone w h.1 h.2.1
  · intro dbFail db event docKey
    rfl

/-- Witness for C5: a delete-event dispatch never delivers to the sample
subscription that only subscribed to update events. -/
theorem C5_event_filter_and_disabled_witness :
    updateOnlyWebhook ∉
      (executeWebhooksInner false sampleDB WebhookEventDelete "doc1").delivered :=
  C5_event_filter_and_disabled.1 false sampleDB WebhookEventDelete "doc1"
    updateOnlyWebhook (by decide)

lemma executeWebhooksInner_wgDones (dbFail : Bool) (db : DB)
    (event docKey : String) :
    (executeWebhooksInner dbFail db event docKey).wgDones = 1 := by
  cases dbFail with
  | true => rfl
  | false =>
    by_cases hd : event = WebhookEventDelete
    · subst hd
      rw [executeWebhooksInner_delete_eq]
    · rw [executeWebhooksInner_other_eq db event docKey hd]

/-- C9: the in-flight-dispatch wait-group is balanced on every code path —
with webhooks enabled every call performs exactly one `Add(1)` and the
dispatch goroutine performs exactly one deferred `Done`, including the
lookup-failure and zero-subscriber early returns; with webhooks disabled
neither happens. -/
theorem C9_waitgroup_balanced :
    (∀ (dbFail : Bool) (db : DB) (event docKey : String),
        (ExecuteWebhooksModel true dbFail db event docKey).wgAdds = 1 ∧
        (ExecuteWebhooksModel true dbFail db event docKey).wgDones = 1) ∧
    (∀ (dbFail : Bool) (db : DB) (event docKey : String),
        (ExecuteWebhooksModel false dbFail db event docKey).wgAdds = 0 ∧
        (ExecuteWebhooksModel false dbFail db event docKey).wgDones = 0) := by
  constructor
  · intro dbFail db event docKey
    exact ⟨rfl, executeWebhooksInner_wgDones dbFail db event docKey⟩
  · intro dbFail db event docKey
    exact ⟨rfl, rfl⟩

/-- C3 counterexample: a delivery attempt started from a cancellable parent
context that even has its own pending deadline sends its request under a
context with no deadline at all, while the registry lookup does get one —
the timeout-around-detach composition is applied at the lookup only, so not
every delivery attempt is sent with a per-attempt context deadline. -/
theorem C3_counterexample :
    (attemptCtx ⟨true, some 5000000000⟩).deadline = none ∧
    (lookupCtx ⟨true, some 5000000000⟩ 10000000000).deadline =
      some 10000000000 :=
  ⟨rfl, rfl⟩

/-- C3 amended: `context.WithoutCancel` is applied once when the dispatch
starts; the step timeout is layered on the detached context for the registry
lookup only; every delivery attempt reuses the detached context unchanged —
immune to parent cancellation but with no per-attempt context deadline. -/
theorem C3_timeout_only_at_lookup :
    ∀ (parent : Ctx) (timeout : Int),
      lookupCtx parent timeout = ⟨false, some timeout⟩ ∧
      attemptCtx parent = ⟨false, none⟩ :=
  fun _parent _timeout => ⟨rfl, rfl⟩

lemma dbFind_none_of_wrong_secret (db : DB) (docID whID s : String)
    (w : Webhook) (_hw : w ∈ db.rows) (_hdoc : w.DocumentID = docID)
    (_hid : w.ID = whID)
    (huniq : ∀ w2 ∈ db.rows, w2.DocumentID = docID → w2.ID = whID → w2 = w)
    (hwrong : s ≠ w.Secret) :
    db.rows.find? (rowMatches docID whID s) = none := by
  rw [List.find?_eq_none]
  intro x hx hmatch
  simp only [rowMatches, Bool.and_eq_true, beq_iff_eq] at hmatch
  have hxw := huniq x hx hmatch.1.1 hmatch.1.2
  rw [hxw] at hmatch
  exact hwrong hmatch.2.symm

lemma dbFind_none_of_no_row (db : DB) (docID whID s : String)
    (hghost : ∀ w2 ∈ db.rows, ¬(w2.DocumentID = docID ∧ w2.ID = whID)) :
    db.rows.find? (rowMatches docID whID s) = none := by
  rw [List.find?_eq_none]
  intro x hx hmatch
  simp only [rowMatches, Bool.and_eq_true, beq_iff_eq] at hmatch
  exact hghost x hx ⟨hmatch.1.1, hmatch.1.2⟩

/-- C6: for Get, Patch and Delete alike, presenting the right document and
webhook id with a wrong secret yields NotFound with the same error as
presenting an id for which no row exists — whenever persistence reports no
rows the handlers produce one identical NotFound response, so nothing
distinguishes a wrong secret from a missing webhook. -/
theorem C6_wrong_secret_equals_not_found :
    ∀ (db : DB) (docID whID ghostID : String) (w : Webhook)
      (h1 h2 : String) (u : WebhookUpdateRequest),
      w ∈ db.rows → w.DocumentID = docID → w.ID = whID →
      (∀ w2 ∈ db.rows, w2.DocumentID = docID → w2.ID = whID → w2 = w) →
      (∀ w2 ∈ db.rows, ¬(w2.DocumentID = docID ∧ w2.ID = ghostID)) →
      GetWebhookSecret h1 ≠ w.Secret →
      GetWebhookSecret h1 ≠ "" → GetWebhookSecret h2 ≠ "" →
      (u.URL == "" && u.Secret == "" && u.Events.isEmpty) = false →
      ((GetDocumentWebhookModel db docID whID h1).result =
          .notFoundErr ErrWebhookNotFound ∧
        (GetDocumentWebhookModel db docID whID h1).result =
          (GetDocumentWebhookModel db docID ghostID h2).result) ∧
      ((PatchDocumentWebhookModel db docID whID h1 true u).result =
          .notFoundErr ErrWebhookNotFound ∧
        (PatchDocumentWebhookModel db docID whID h1 true u).result =
          (PatchDocumentWebhookModel db docID ghostID h2 true u).result) ∧
      ((DeleteDocumentWebhookModel db docID whID h1).result =
          .notFoundErr ErrWebhookNotFound ∧
        (DeleteDocumentWebhookModel db docID whID h1).result =
          (DeleteDocumentWebhookModel db docID ghostID h2).result) := by
  intro db docID whID ghostID w h1 h2 u hw hdoc hid huniq hghost hwrong hne1 hne2 hu
  have hs1 : (GetWebhookSecret h1 == "") = false := by simpa using hne1
  have hs2 : (GetWebhookSecret h2 == "") = false := by simpa using hne2
  have hfind1 : db.rows.find? (rowMatches docID whID (GetWebhookSecret h1)) = none :=
    dbFind_none_of_wrong_secret db docID whID (GetWebhookSecret h1) w hw hdoc hid
      huniq hwrong
  have hfind2 : db.rows.find? (rowMatches docID ghostID (GetWebhookSecret h2)) = none :=
    dbFind_none_of_no_row db docID ghostID (GetWebhookSecret h2) hghost
  refine ⟨⟨?_, ?_⟩, ⟨?_, ?_⟩, ⟨?_, ?_⟩⟩
  · simp [GetDocumentWebhookModel, hs1, dbGetWebhook, hfind1]
  · simp [GetDocumentWebhookModel, hs1, hs2, dbGetWebhook, hfind1, hfind2]
  · simp [PatchDocumentWebhookModel, hs1, hu, dbUpdateWebhook, hfind1]
  · simp [PatchDocumentWebhookModel, hs1, hs2, hu, dbUpdateWebhook, hfind1, hfind2]
  · simp [DeleteDocumentWebhookModel, hs1, dbDeleteWebhook, hfind1]
  · simp [DeleteDocumentWebhookModel, hs1, hs2, dbDeleteWebhook, hfind1, hfind2]

/-- Witness for C6: on the sample store, presenting the right ids with the
wrong secret draws the same NotFound as asking for an id that was never
created. -/
theorem C6_wrong_secret_equals_not_found_witness :
    ((GetDocumentWebhookModel sampleDB "doc1" "wh1" "Secret wrong").result =
        .notFoundErr ErrWebhookNotFound ∧
      (GetDocumentWebhookModel sampleDB "doc1" "wh1" "Secret wrong").result =
        (GetDocumentWebhookModel sampleDB "doc1" "ghost" "Secret wrong2").result) ∧
    ((PatchDocumentWebhookModel sampleDB "doc1" "wh1" "Secret wrong" true
        ⟨"https://new.example.com", "", []⟩).result =
        .notFoundErr ErrWebhookNotFound ∧
      (PatchDocumentWebhookModel sampleDB "doc1" "wh1" "Secret wrong" true
        ⟨"https://new.example.com", "", []⟩).result =
        (PatchDocumentWebhookModel sampleDB "doc1" "ghost" "Secret wrong2" true
          ⟨"https://new.example.com", "", []⟩).result) ∧
    ((DeleteDocumentWebhookModel sampleDB "doc1" "wh1" "Secret wrong").result =
        .notFoundErr ErrWebhookNotFound ∧
      (DeleteDocumentWebhookModel sampleDB "doc1" "wh1" "Secret wrong").result =
        (DeleteDocumentWebhookModel sampleDB "doc1" "ghost" "Secret wrong2").result) :=
  C6_wrong_secret_equals_not_found sampleDB "doc1" "wh1" "ghost" sampleWebhook
    "Secret wrong" "Secret wrong2" ⟨"https://new.example.com", "", []⟩
    (by decide) (by decide) (by decide) (by decide) (by decide) (by decide)
    (by decide) (by decide) (by decide)

/-- C7 counterexample: a creation request whose url is empty, presented by a
token without the Webhook permission, fails with BadRequest (missing url)
and not with Forbidden — the field validation runs before the permission
check, refuting that creation fails Forbidden whenever the permission is
absent. -/
theorem C7_counterexample :
    flagsMisses 0 PermissionWebhook = true ∧
    (PostDocumentWebhookModel ⟨[], 0⟩ "doc1" true ⟨"", "s", ["update"]⟩ 0).result =
      .badRequestErr ErrMissingWebhookURL ∧
    isForbiddenResult
      (PostDocumentWebhookModel ⟨[], 0⟩ "doc1" true ⟨"", "s", ["update"]⟩ 0).result =
      false := by
  refine ⟨by decide, by decide, by decide⟩

/-- C7 amended: creation fails BadRequest whenever url, secret or events is
empty, without reaching persistence; when all three are nonempty it fails
Forbidden exactly when the claims lack the Webhook permission (the field
validation precedes the permission check), again without reaching
persistence; when neither failure applies it stores the webhook and returns
it including its generated id. -/
theorem C7_create_validation_order :
    (∀ (db : DB) (docID : String) (body : WebhookCreateRequest) (perms : Nat),
        body.URL = "" ∨ body.Secret = "" ∨ body.Events = [] →
        (∃ msg, (PostDocumentWebhookModel db docID true body perms).result =
          .badRequestErr msg) ∧
        (PostDocumentWebhookModel db docID true body perms).persisted = false ∧
        (PostDocumentWebhookModel db docID true body perms).db = db) ∧
    (∀ (db : DB) (docID : String) (body : WebhookCreateRequest) (perms : Nat),
        body.URL ≠ "" → body.Secret ≠ "" → body.Events ≠ [] →
        flagsMisses perms PermissionWebhook = true →
        (PostDocumentWebhookModel db docID true body perms).result =
          .forbiddenErr "permission denied: webhook" ∧
        (PostDocumentWebhookModel db docID true body perms).persisted = false ∧
        (PostDocumentWebhookModel db docID true body perms).db = db) ∧
    (∀ (db : DB) (docID : String) (body : WebhookCreateRequest) (perms : Nat),
        body.URL ≠ "" → body.Secret ≠ "" → body.Events ≠ [] →
        flagsMisses perms PermissionWebhook = false →
        (PostDocumentWebhookModel db docID true body perms).result =
          .okWebhook (webhookResponseOf
            (dbCreateWebhook db docID body.URL body.Secret body.Events).1) ∧
        (PostDocumentWebhookModel db docID true body perms).persisted = true) := by
  refine ⟨?_, ?_, ?_⟩
  · intro db docID body perms hempty
    by_cases hU : body.URL = ""
    · simp [PostDocumentWebhookModel, hU]
    · by_cases hS : body.Secret = ""
      · simp [PostDocumentWebhookModel, hU, hS]
      · have hE : body.Events = [] := by tauto
        simp [PostDocumentWebhookModel, hU, hS, hE]
  · intro db docID body perms hU hS hE hperm
    simp [PostDocumentWebhookModel, hU, hS,
      (by simpa using hE : ¬body.Events = []), hperm]
  · intro db docID body perms hU hS hE hperm
    simp [PostDocumentWebhookModel, hU, hS,
      (by simpa using hE : ¬body.Events = []), hperm]

/-- Witness for C7: with a nonempty body and claims without the Webhook
permission bit, creation is Forbidden and nothing is persisted. -/
theorem C7_create_validation_order_witness :
    (PostDocumentWebhookModel ⟨[], 0⟩ "doc1" true
        ⟨"https://example.com/hook", "s", ["update"]⟩ 0).result =
      .forbiddenErr "permission denied: webhook" ∧
    (PostDocumentWebhookModel ⟨[], 0⟩ "doc1" true
        ⟨"https://example.com/hook", "s", ["update"]⟩ 0).persisted = false ∧
    (PostDocumentWebhookModel ⟨[], 0⟩ "doc1" true
        ⟨"https://example.com/hook", "s", ["update"]⟩ 0).db = ⟨[], 0⟩ :=
  C7_create_validation_order.2.1 ⟨[], 0⟩ "doc1"
    ⟨"https://example.com/hook", "s", ["update"]⟩ 0
    (by decide) (by decide) (by decide) (by decide)

/-- C8: a webhook update whose body leaves url, secret and events all empty
fails with BadRequest (missing url, secret or events) and never reaches the
persistence UpdateWebhook call. -/
theorem C8_patch_all_empty_bad_request :
    ∀ (db : DB) (docID whID header : String),
      GetWebhookSecret header ≠ "" →
      PatchDocumentWebhookModel db docID whID header true ⟨"", "", []⟩ =
        ⟨.badRequestErr ErrMissingURLOrSecretOrEvents, db, false⟩ := by
  intro db docID whID header h
  have hs : (GetWebhookSecret header == "") = false := by simpa using h
  simp [PatchDocumentWebhookModel, hs]

/-- Witness for C8 at a concrete request carrying a proper secret header. -/
theorem C8_patch_all_empty_bad_request_witness :
    PatchDocumentWebhookModel sampleDB "doc1" "wh1" "Secret s3cret" true
      ⟨"", "", []⟩ =
      ⟨.badRequestErr ErrMissingURLOrSecretOrEvents, sampleDB, false⟩ :=
  C8_patch_all_empty_bad_request sampleDB "doc1" "wh1" "Secret s3cret"
    (by decide)

/-- C10: GetWebhookSecret returns the part of the Authorization header after
its first 7 characters exactly when the header is longer than 7 characters
and its first 6 characters case-insensitively spell SECRET, and the empty
string otherwise; the 7th character need not be a space, the header
consisting of exactly Secret-and-a-space yields the empty secret, and an
empty extracted secret makes the Get, Patch and Delete handlers fail
BadRequest (missing webhook secret) before any persistence call. -/
theorem C10_webhook_secret_extraction :
    (∀ header : String,
        7 < header.toList.length →
        (header.toList.take 6).map Char.toUpper = ['S', 'E', 'C', 'R', 'E', 'T'] →
        GetWebhookSecret header = String.mk (header.toList.drop 7)) ∧
    (∀ header : String,
        ¬(7 < header.toList.length ∧
          (header.toList.take 6).map Char.toUpper =
            ['S', 'E', 'C', 'R', 'E', 'T']) →
        GetWebhookSecret header = "") ∧
    GetWebhookSecret "Secret " = "" ∧
    GetWebhookSecret "SecretXabc" = "abc" ∧
    GetWebhookSecret "sECReT abc" = "abc" ∧
    GetWebhookSecret "Bearer abcdef" = "" ∧
    (∀ (db : DB) (docID whID header : String),
        GetWebhookSecret header = "" →
        GetDocumentWebhookModel db docID whID header =
          ⟨.badRequestErr ErrMissingWebhookSecret, db, false⟩ ∧
        DeleteDocumentWebhookModel db docID whID header =
          ⟨.badRequestErr ErrMissingWebhookSecret, db, false⟩ ∧
        (∀ (bodyOk : Bool) (u : WebhookUpdateRequest),
          PatchDocumentWebhookModel db docID whID header bodyOk u =
            ⟨.badRequestErr ErrMissingWebhookSecret, db, false⟩)) := by
  refine ⟨?_, ?_, by decide, by decide, by decide, by decide, ?_⟩
  · intro header hlen hsecret
    rw [GetWebhookSecret, if_pos ⟨hlen, hsecret⟩]
  · intro header hneg
    rw [GetWebhookSecret, if_neg hneg]
  · intro db docID whID header h
    have hs : (GetWebhookSecret header == "") = true := by simpa using h
    refine ⟨?_, ?_, ?_⟩
    · simp [GetDocumentWebhookModel, hs]
    · simp [DeleteDocumentWebhookModel, hs]
    · intro bodyOk u
      simp [PatchDocumentWebhookModel, hs]

/-- Witness for C10 at a concrete header: the scheme check is
case-insensitive and the secret is everything after the first 7 characters. -/
theorem C10_webhook_secret_extraction_witness :
    GetWebhookSecret "secret mykey" = String.mk ("secret mykey".toList.drop 7) :=
  C10_webhook_secret_extraction.1 "secret mykey" (by decide) (by decide)

end Gobin
